import Mathlib

/-!
A shallow embedding of the entry-resolution core of `message_to_json.py`
(Finman_Agent): embedded Python values, the field normalizer
`_normalize_confidence_parsed`, the clarification policy
`needs_clarification`, question synthesis `_start_verif_question_issues`,
the persistence helper `_store_query_for_user`, the two-attempt extraction
adapter `categorization_with_confidence`, and the `handle_text` state
machine, together with theorems settling the spec claims.

Python strings are Lean `String`s, but every Python string primitive the
module uses (`strip`, `lower`, `capitalize`, `replace`, `split`, numeric
parsing) is modelled here by structural recursion over the character list,
so that every definition evaluates inside the kernel.
-/

namespace Finman

/-- Whitespace characters Python `str.strip()` removes (the ones that can
occur in the module's inputs). -/
def isPySpace (c : Char) : Bool :=
  c = ' ' ∨ c = '\t' ∨ c = '\n' ∨ c = '\r'

/-- Python `s.strip()`. -/
def pyStrip (s : String) : String :=
  String.mk (((s.data.dropWhile isPySpace).reverse.dropWhile isPySpace).reverse)

/-- Python `s.lower()` (ASCII case mapping; the module only lowers ASCII). -/
def pyLower (s : String) : String :=
  String.mk (s.data.map Char.toLower)

/-- Python `s.capitalize()`: first character upper-cased, rest lower-cased. -/
def pyCapitalize (s : String) : String :=
  match s.data with
  | [] => ""
  | c :: rest => String.mk (Char.toUpper c :: rest.map Char.toLower)

/-- Fuel-driven core of `str.replace`: replaces each non-overlapping
occurrence of `pat` (never empty in the module) left to right. -/
def listReplaceAux (pat repl : List Char) : Nat → List Char → List Char
  | _, [] => []
  | 0, s => s
  | fuel + 1, c :: rest =>
    if pat.isPrefixOf (c :: rest) then
      repl ++ listReplaceAux pat repl fuel (rest.drop (pat.length - 1))
    else
      c :: listReplaceAux pat repl fuel rest

/-- Python `s.replace(pat, repl)`. -/
def pyReplace (s pat repl : String) : String :=
  String.mk (listReplaceAux pat.data repl.data s.data.length s.data)

/-- Split a character list at a separator character (Python `split` as the
module uses it, via a one-character separator). -/
def listSplitOnChar (sep : Char) : List Char → List (List Char)
  | [] => [[]]
  | c :: rest =>
    let r := listSplitOnChar sep rest
    if c = sep then [] :: r
    else
      match r with
      | h :: t => (c :: h) :: t
      | [] => [[c]]

/-- Decimal digits to a number, `none` on empty or non-digit input. -/
def digitsToNat (cs : List Char) : Option Nat :=
  if cs ≠ [] ∧ cs.all Char.isDigit then
    some (cs.foldl (fun acc c => acc * 10 + (c.toNat - 48)) 0)
  else Option.none

/-- Strips one leading sign from a character list. -/
def signSplit : List Char → Int × List Char
  | '-' :: rest => (-1, rest)
  | '+' :: rest => (1, rest)
  | cs => (1, cs)

/-- Model of Python `int(s)` on a string: surrounding whitespace, an optional
sign, then decimal digits (Python also allows underscores between digits;
the module never feeds it those). -/
def pyIntParse (s : String) : Option Int :=
  let p := signSplit (pyStrip s).data
  match digitsToNat p.2 with
  | some n => some (p.1 * n)
  | Option.none => Option.none

/-- Model of Python `float(s)` on a string: whitespace, an optional sign,
then decimal digits with at most one point (scientific notation and the
inf/nan spellings are not modelled; the module never relies on them). -/
def pyFloatParse (s : String) : Option ℚ :=
  let p := signSplit (pyStrip s).data
  match listSplitOnChar '.' p.2 with
  | [a] =>
    match digitsToNat a with
    | some n => some (mkRat (p.1 * n) 1)
    | Option.none => Option.none
  | [a, b] =>
    match digitsToNat (a ++ b) with
    | some n => some (mkRat (p.1 * n) (10 ^ b.length))
    | Option.none => Option.none
  | _ => Option.none

/-- Embedded Python values as the module manipulates them: `None`, booleans,
numbers (Python `int` and `float` are merged into `ℚ`; the module only ever
compares and stores them exactly), strings, lists and string-keyed dicts. -/
inductive PyVal where
  | none
  | bool (b : Bool)
  | num (q : ℚ)
  | str (s : String)
  | list (xs : List PyVal)
  | dict (kvs : List (String × PyVal))
  deriving Inhabited

/-- Python truthiness `bool(v)` of an embedded value. -/
def PyVal.truthy : PyVal → Bool
  | .none => false
  | .bool b => b
  | .num q => decide (q ≠ 0)
  | .str s => !s.data.isEmpty
  | .list xs => !xs.isEmpty
  | .dict kvs => !kvs.isEmpty

/-- `d.get(k)`: the value stored under `k`, `None` when the key is absent
(the module treats a missing key and an explicit `null` value alike, since
it only ever reads with `.get` and `is not None`). -/
def pyGet (kvs : List (String × PyVal)) (k : String) : PyVal :=
  match kvs.find? (fun kv => kv.1 == k) with
  | some kv => kv.2
  | Option.none => PyVal.none

/-- Python `a or b`. -/
def pyOr (a b : PyVal) : PyVal := if a.truthy then a else b

/-- Python `float(v)` on an arbitrary value: numbers and booleans convert,
numeric strings parse, everything else raises (`ValueError` / `TypeError`),
modelled as `Except.error`. -/
def pyFloat : PyVal → Except String ℚ
  | .num q => .ok q
  | .bool b => .ok (if b then 1 else 0)
  | .str s =>
    match pyFloatParse s with
    | some q => .ok q
    | Option.none => .error "ValueError"
  | .none => .error "TypeError"
  | .list _ => .error "TypeError"
  | .dict _ => .error "TypeError"

/-- Python `str(v)` as far as the module observes it (every reachable call
passes a string; the other arms are printable stand-ins). -/
def pyStr : PyVal → String
  | .str s => s
  | .none => "None"
  | .bool b => if b then "True" else "False"
  | .num q => toString q
  | .list _ => "[list]"
  | .dict _ => "[dict]"

/-- `ALLOWED_CATEGORIES = {"Food", "Entertainment", "Travel", "Others"}`. -/
def ALLOWED_CATEGORIES : List String := ["Food", "Entertainment", "Travel", "Others"]

/-- `CONF_THRESH = 0.70` (written as an exact rational). -/
def CONF_THRESH : ℚ := mkRat 7 10

/-- The canonical shape `_normalize_confidence_parsed` returns: a dict with
exactly the keys `Name`, `name_confidence`, `category`,
`category_confidence`, `price`, `price_confidence`, `raw_model` (no
`isIncome` key survives normalization). -/
structure Entry where
  Name : PyVal
  name_confidence : ℚ
  category : PyVal
  category_confidence : ℚ
  price : PyVal
  price_confidence : ℚ
  raw_model : PyVal
  deriving Inhabited

/-- `_normalize_confidence_parsed(parsed)`: builds the canonical entry.
Each confidence is `float(parsed.get(k) or 0.0)`, which raises on a truthy
value `float()` cannot convert; a non-`None` category is trimmed,
capitalized and coerced into `ALLOWED_CATEGORIES` with fallback
`"Others"`, while a `None` category is left as it is. -/
def _normalize_confidence_parsed (parsed : List (String × PyVal)) : Except String Entry :=
  match pyFloat (pyOr (pyGet parsed "name_confidence") (.num 0)),
        pyFloat (pyOr (pyGet parsed "category_confidence") (.num 0)),
        pyFloat (pyOr (pyGet parsed "price_confidence") (.num 0)) with
  | .error e, _, _ => .error e
  | .ok _, .error e, _ => .error e
  | .ok _, .ok _, .error e => .error e
  | .ok nc, .ok cc, .ok pc =>
    let cat0 := pyGet parsed "category"
    let cat :=
      match cat0 with
      | .none => cat0
      | c =>
        let cat_norm := pyCapitalize (pyStrip (pyStr c))
        if cat_norm ∈ ALLOWED_CATEGORIES then PyVal.str cat_norm else PyVal.str "Others"
    .ok {
      Name := pyGet parsed "Name"
      name_confidence := nc
      category := cat
      category_confidence := cc
      price := pyGet parsed "price"
      price_confidence := pc
      raw_model := PyVal.dict parsed
    }

/-- `needs_clarification(parsed, thresh)`: accept immediately when the price
confidence clears the threshold; otherwise collect every below-threshold
field, in the order name, category, price. -/
def needs_clarification (parsed : Entry) (thresh : ℚ) : Bool × List String :=
  let price_conf := parsed.price_confidence
  if price_conf ≥ thresh then (false, [])
  else
    let issues :=
      (if parsed.name_confidence < thresh then ["name"] else []) ++
      (if parsed.category_confidence < thresh then ["category"] else []) ++
      (if price_conf < thresh then ["price"] else [])
    (decide (issues.length > 0), issues)

/-- `_start_verif_question_issues(issues)`: one question per issues list. -/
def _start_verif_question_issues (issues : List String) : String :=
  if issues.isEmpty then
    "✅ *Does this look correct?*\n\nReply *yes* to save or *no* to make changes."
  else if issues == ["price"] then
    "💰 *What's the price?*\n\nI couldn't determine the amount. Please reply with the price (e.g., \"50\" or \"₹150\")."
  else if issues == ["name"] then
    "📝 *What's the item name?*\n\nI couldn't identify the product. Please tell me what you purchased."
  else if issues == ["category"] then
    "📁 *Which category?*\n\nPlease choose: *Food* / *Entertainment* / *Travel* / *Others*"
  else
    "🤔 *Need a bit more info!*\n\nI'm unsure about: *" ++ String.intercalate "*, *" issues ++ "*\n\nPlease provide these details (e.g., \"Coffee, Food, 50\")."

/-- `format_pretty_json(d)` (the f-string renders each value with `str`).
On a normalized entry `d.get("name")` is always `None`, kept here as the
middle `or` operand. -/
def format_pretty_json (d : Entry) : String :=
  let name := pyOr d.Name (pyOr PyVal.none (PyVal.str "Unknown"))
  let category := pyOr d.category (PyVal.str "Unknown")
  let price := pyOr d.price (PyVal.num 0)
  "📝 *" ++ pyStr name ++ "*\n📁 Category: " ++ pyStr category ++ "\n💰 Amount: ₹" ++ pyStr price

/-- The document `_store_query_for_user` inserts into `db.Queries`. The
`time` and `created_at` wall-clock timestamps are outside the model (no
claim mentions them); `raw_model` is copied unchanged, since the source's
`isinstance` guard has identical branches. -/
structure Doc where
  phone_number : PyVal
  price : PyVal
  name : PyVal
  category : PyVal
  isIncome : Bool
  telegram_id : String
  raw_model : PyVal
  deriving Inhabited

/-- Price normalization inside `_store_query_for_user`: `None` is skipped;
a string is stripped, lower-cased, cleared of the markers "₹", "rs", ","
and "$" and parsed (`float` when a point remains, else `int`; a parse
failure is caught, leaving `None`); Python ints and floats (and bools,
which Python counts as ints) pass through; any other type is left as
`None`. -/
def storePriceNorm : PyVal → Option PyVal
  | .none => Option.none
  | .str s =>
    let tmp := pyReplace (pyReplace (pyReplace (pyReplace (pyLower (pyStrip s)) "₹" "") "rs" "") "," "") "$" ""
    if tmp.data.contains '.' then (pyFloatParse tmp).map PyVal.num
    else (pyIntParse tmp).map (fun i => PyVal.num (mkRat i 1))
  | .num q => some (.num q)
  | .bool b => some (.num (if b then 1 else 0))
  | .list _ => Option.none
  | .dict _ => Option.none

/-- The document built at the end of `_store_query_for_user`. `isIncome` is
`bool(parsed.get("isIncome", False))`, and the normalized dict carries no
`isIncome` key, so it is always `False` here. -/
def buildDoc (phone : PyVal) (telegram_id : String) (parsed : Entry) : Doc :=
  { phone_number := phone
    price := (storePriceNorm parsed.price).getD (PyVal.num 0)
    name := pyOr parsed.Name (pyOr PyVal.none (PyVal.str ""))
    category := pyOr parsed.category (PyVal.str "uncategorized")
    isIncome := false
    telegram_id := telegram_id
    raw_model := parsed.raw_model }

/-- The external collaborators of `_store_query_for_user`: whether a db
handle is present, the Mongo `insert_one` (which may raise), and the
results of the three `db.Users.find_one` queries of the phone-resolution
chain (external database state). -/
structure StoreEnv where
  dbPresent : Bool
  insertOne : Doc → Except String String
  findUserByTgInt : Option (List (String × PyVal))
  findUserByTgStr : Option (List (String × PyVal))
  findUserAny : Option (List (String × PyVal))

/-- The `user = find_one(...); if not user: ...` chain: the first truthy
result of the three lookups. -/
def pickUser (a b c : Option (List (String × PyVal))) : Option (List (String × PyVal)) :=
  let t : Option (List (String × PyVal)) → Bool := fun u =>
    match u with
    | some kvs => !kvs.isEmpty
    | Option.none => false
  if t a then a else if t b then b else if t c then c else Option.none

/-- The phone-resolution chain of `_store_query_for_user` when the caller
supplies no (truthy) session phone: the first truthy user document, then
`user.get("phone_number") or user.get("phone_number") or user.get("phone")
or user.get("mobile")`, `None` when no user is found or the phone is
falsy. -/
def resolvePhone (env : StoreEnv) : Option PyVal :=
  match pickUser env.findUserByTgInt env.findUserByTgStr env.findUserAny with
  | Option.none => Option.none
  | some user =>
    let phone := pyOr (pyOr (pyOr (pyGet user "phone_number") (pyGet user "phone_number")) (pyGet user "phone")) (pyGet user "mobile")
    if phone.truthy then some phone else Option.none

/-- `_store_query_for_user(db, telegram_id, parsed, session_phone)`.
Returns the inserted id (`None` on any failure, as the source catches every
exception and the insert is the last statement) together with the list of
documents the Entry Store actually persisted this call (empty when the
insert raised), for reasoning about at-most-once persistence. -/
def _store_query_for_user (env : StoreEnv) (telegram_id : String)
    (parsed : Entry) (session_phone : PyVal) : Option String × List Doc :=
  let phone? : Option PyVal :=
    if session_phone.truthy then some session_phone else resolvePhone env
  match phone? with
  | Option.none => (Option.none, [])
  | some phone =>
    let doc := buildDoc phone telegram_id parsed
    if !env.dbPresent then (Option.none, [])
    else
      match env.insertOne doc with
      | .ok oid => (some oid, [doc])
      | .error _ => (Option.none, [])

/-- The apostrophe character as a one-character string (for the quote fix of
`_try_fix_and_load_json`). -/
def squote : String := String.mk [Char.ofNat 39]

/-- `_try_fix_and_load_json(text)`: `json.loads` with exceptions caught (an
external library call, passed in as `jsonLoads : String → Option PyVal`),
then one retry after swapping single quotes for double quotes and dropping
trailing commas before closing brackets. -/
def _try_fix_and_load_json (jsonLoads : String → Option PyVal) (text : String) : Option PyVal :=
  match jsonLoads text with
  | some v => some v
  | Option.none =>
    let fixed := pyReplace (pyStrip text) squote "\""
    let fixed := pyReplace fixed ",\x7d" "\x7d"
    let fixed := pyReplace fixed ",]" "]"
    jsonLoads fixed

/-- Truthiness of a parse result (`if parsed:` where `parsed` may be the
`None` of a failed parse or a falsy empty object). -/
def truthyOpt : Option PyVal → Bool
  | some v => v.truthy
  | Option.none => false

/-- `_normalize_confidence_parsed` applied to an arbitrary parsed value: a
non-dict raises `AttributeError` at the first `.get`. -/
def normalizeVal : PyVal → Except String Entry
  | .dict kvs => _normalize_confidence_parsed kvs
  | _ => .error "AttributeError"

/-- The all-null fallback object returned when both attempts fail to parse:
every field `None`, every confidence `0.0`. -/
def fallbackEntry (raw : String) : Entry :=
  { Name := PyVal.none
    name_confidence := 0
    category := PyVal.none
    category_confidence := 0
    price := PyVal.none
    price_confidence := 0
    raw_model := PyVal.str raw }

/-- The second, `force_guess = True`, attempt of
`categorization_with_confidence`: the code after the first attempt's early
return, parameterized by the first attempt's raw text and by whether its
parse result was `None` (only the fallback's `raw_model` depends on
that). -/
def categorization_second (jsonLoads : String → Option PyVal)
    (respond : String → Option String → Bool → String)
    (user_msg : String) (image_b64 : Option String) (text : String)
    (firstWasNone : Bool) : Except String Entry × Nat :=
  let text2 := respond user_msg image_b64 true
  let parsed2 := _try_fix_and_load_json jsonLoads text2
  match parsed2 with
  | some v2 =>
    if v2.truthy then
      match normalizeVal v2 with
      | .error e => (.error e, 2)
      | .ok n2 => (.ok { n2 with raw_model := PyVal.str text2 }, 2)
    else (.ok (fallbackEntry (if firstWasNone then text else text2)), 2)
  | Option.none => (.ok (fallbackEntry (if firstWasNone then text else text2)), 2)

/-- `categorization_with_confidence(user_msg, image_b64)`. The LLM graph is
the opaque oracle `respond`: the model text returned for the given user
message, image and `force_guess` flag. The second component counts the
`graph.invoke` calls made on the path taken (the source has exactly two
call sites and no loop). Exceptions out of normalization propagate, as in
the source. -/
def categorization_with_confidence (jsonLoads : String → Option PyVal)
    (respond : String → Option String → Bool → String)
    (user_msg : String) (image_b64 : Option String) : Except String Entry × Nat :=
  let text := respond user_msg image_b64 false
  let parsed := _try_fix_and_load_json jsonLoads text
  match parsed with
  | some v =>
    if v.truthy then
      match normalizeVal v with
      | .error e => (.error e, 1)
      | .ok n1 =>
        if CONF_THRESH ≤ n1.name_confidence ∨ CONF_THRESH ≤ n1.category_confidence ∨ CONF_THRESH ≤ n1.price_confidence then
          (.ok { n1 with raw_model := PyVal.str text }, 1)
        else categorization_second jsonLoads respond user_msg image_b64 text false
    else categorization_second jsonLoads respond user_msg image_b64 text false
  | Option.none => categorization_second jsonLoads respond user_msg image_b64 text true

/-- The `pending` dict `handle_text` keeps in `chat_data`. -/
structure Pending where
  stage : String
  parsed : Entry
  image_b64 : Option String
  user_text : String
  issues : List String
  substage : Option String
  choice : Option String
  deriving Inhabited

/-- The collaborators one `handle_text` turn touches: the JSON loader, the
LLM oracle and the Entry Store environment. `store.dbPresent` is
`context.bot_data.get("db") is not None`. -/
structure HEnv where
  jsonLoads : String → Option PyVal
  respond : String → Option String → Bool → String
  store : StoreEnv

/-- What one `handle_text` turn produces: the new pending state, the bot
replies sent, and the documents persisted during the turn. -/
structure TurnResult where
  pending : Option Pending
  replies : List String
  inserts : List Doc
  deriving Inhabited

/-- The category-correction coercion of the verify flow:
`user_text.strip().capitalize()`, replaced by "Others" when outside the
enum. -/
def coerceCategory (s : String) : String :=
  if pyCapitalize (pyStrip s) ∈ ALLOWED_CATEGORIES then pyCapitalize (pyStrip s) else "Others"

/-- The confirmation prompt `handle_text` sends after applying a
correction in the verify flow. -/
def confirmPrompt (e : Entry) : String :=
  "👍 *Got it!* Please confirm this is correct:\n\n" ++ format_pretty_json e ++ "\n\nReply *yes* to save or *no* to make changes."

/-- The no-pending path of `handle_text` (also reached when a pending
record carries an unrecognized stage or substage, which fall through every
branch of the source). A resolved entry is stored and `pending` is left as
it was (the source does not pop it on this path); an unresolved one
creates the `await_clarify` pending state with no image. -/
def handle_text_fresh (env : HEnv) (pending0 : Option Pending)
    (user_text : String) (telegram_id : String) : Except String TurnResult :=
  match (categorization_with_confidence env.jsonLoads env.respond user_text Option.none).1 with
  | .error e => .error e
  | .ok parsed =>
    let r := needs_clarification parsed CONF_THRESH
    if r.1 = false then
      let ins :=
        if env.store.dbPresent then
          _store_query_for_user env.store telegram_id parsed PyVal.none
        else (Option.none, [])
      let pretty := format_pretty_json parsed
      let reply :=
        if ins.1.isSome then "✅ *Saved successfully!*\n\n" ++ pretty
        else "⚠️ *Couldn't save this expense.*\n\nThere was an issue with the database.\n\n" ++ pretty
      .ok ⟨pending0, [reply], ins.2⟩
    else
      .ok ⟨some {
            stage := "await_clarify"
            parsed := parsed
            image_b64 := Option.none
            user_text := user_text
            issues := r.2
            substage := Option.none
            choice := Option.none },
          [_start_verif_question_issues r.2], []⟩

/-- `handle_text(update, context)` as a transition function: takes the
current pending state and the inbound message text, returns the new state,
the replies and the persisted documents (or the uncaught exception). The
source's `session_phone` in the clarify branch is always `None` (the `try`
block assigns an unused variable), so `None` is passed through here. -/
def handle_text (env : HEnv) (pending0 : Option Pending)
    (msg_text : String) (telegram_id : String) : Except String TurnResult :=
  let user_text := pyStrip msg_text
  if user_text.data.isEmpty then .ok ⟨pending0, [], []⟩
  else
    match pending0 with
    | some pending =>
      if pending.stage == "await_clarify" then
        let image_b64 := pending.image_b64
        let combined_text := pending.user_text ++ " " ++ user_text
        match (categorization_with_confidence env.jsonLoads env.respond combined_text image_b64).1 with
        | .error e => .error e
        | .ok parsed =>
          let r := needs_clarification parsed CONF_THRESH
          if r.1 = false then
            let ins :=
              if env.store.dbPresent then
                _store_query_for_user env.store telegram_id parsed PyVal.none
              else (Option.none, [])
            let pretty := format_pretty_json parsed
            let reply :=
              if ins.1.isSome then "✅ *Saved successfully!*\n\n" ++ pretty
              else "⚠️ *Confirmed but couldn't save.*\n\nThere was an issue saving to the database.\n\n" ++ pretty
            .ok ⟨Option.none, [reply], ins.2⟩
          else
            let pending2 := { pending with
              stage := "await_clarify"
              parsed := parsed
              issues := r.2
              user_text := combined_text }
            .ok ⟨some pending2, [_start_verif_question_issues r.2], []⟩
      else if pending.stage == "verify_flow" then
        let stage := pending.substage.getD "await_verify_response"
        if stage == "await_verify_response" then
          if pyLower user_text ∈ ["yes", "y", "yeah", "correct"] then
            let parsed := pending.parsed
            let ins :=
              if env.store.dbPresent then
                _store_query_for_user env.store telegram_id parsed PyVal.none
              else (Option.none, [])
            let pretty := format_pretty_json parsed
            let reply :=
              if ins.1.isSome then "✅ *Saved successfully!*\n\n" ++ pretty
              else "⚠️ *Confirmed but couldn't save.*\n\nThere was an issue saving to the database.\n\n" ++ pretty
            .ok ⟨Option.none, [reply], ins.2⟩
          else
            .ok ⟨some { pending with substage := some "choose_field" },
                ["📝 *Which field would you like to correct?*\n\nReply with: `name` / `category` / `price` / `all`"], []⟩
        else if stage == "choose_field" then
          let choice := pyLower (pyStrip user_text)
          if !(choice ∈ ["name", "category", "price", "all"]) then
            .ok ⟨pending0, ["🤔 Please reply with one of: `name` / `category` / `price` / `all`"], []⟩
          else
            .ok ⟨some { pending with substage := some "await_correction", choice := some choice },
                ["✏️ Please send the corrected value for *" ++ choice ++ "*."], []⟩
        else if stage == "await_correction" then
          let choice := pending.choice
          let parsed := pending.parsed
          let corrected : Except String (Option Entry) :=
            if choice == some "name" then
              .ok (some { parsed with Name := PyVal.str (pyStrip user_text) })
            else if choice == some "category" then
              .ok (some { parsed with category := PyVal.str (coerceCategory user_text) })
            else if choice == some "price" then
              .ok (some { parsed with price := PyVal.str (pyStrip user_text) })
            else if choice == some "all" then
              match _try_fix_and_load_json env.jsonLoads user_text with
              | some v => if v.truthy then (normalizeVal v).map some else .ok Option.none
              | Option.none => .ok Option.none
            else .ok (some parsed)
          match corrected with
          | .error e => .error e
          | .ok Option.none =>
            .ok ⟨pending0, ["🤔 *Couldn't understand that format.*\n\nPlease send the corrected values as JSON or correct fields one by one."], []⟩
          | .ok (some parsed2) =>
            .ok ⟨some { pending with parsed := parsed2, substage := some "await_verify_response" },
                [confirmPrompt parsed2], []⟩
        else handle_text_fresh env pending0 user_text telegram_id
      else handle_text_fresh env pending0 user_text telegram_id
    | Option.none => handle_text_fresh env pending0 user_text telegram_id


/-- A high-confidence raw extractor output, as concrete test data. -/
def confidentDict : List (String × PyVal) :=
  [("Name", PyVal.str "Lunch"), ("name_confidence", PyVal.num (mkRat 9 10)),
   ("category", PyVal.str "Food"), ("category_confidence", PyVal.num (mkRat 9 10)),
   ("price", PyVal.num 120), ("price_confidence", PyVal.num (mkRat 9 10)),
   ("isIncome", PyVal.bool false)]

/-- A concrete JSON loader: parses exactly the model reply "OK". -/
def jsonOK : String → Option PyVal :=
  fun t => if t == "OK" then some (PyVal.dict confidentDict) else Option.none

/-- A concrete oracle that always answers "OK". -/
def respondOK : String → Option String → Bool → String := fun _ _ _ => "OK"

/-- A store whose insert always fails, with a resolvable phone. -/
def storeFail : StoreEnv :=
  { dbPresent := true
    insertOne := fun _ => .error "down"
    findUserByTgInt := some [("phone_number", PyVal.str "91")]
    findUserByTgStr := Option.none
    findUserAny := Option.none }

/-- The same store with a succeeding insert. -/
def storeGood : StoreEnv := { storeFail with insertOne := fun _ => .ok "oid1" }

def envFail : HEnv := { jsonLoads := jsonOK, respond := respondOK, store := storeFail }

def envGood : HEnv := { jsonLoads := jsonOK, respond := respondOK, store := storeGood }

/-- A pending clarification state, as concrete test data. -/
def pendClarify : Pending :=
  { stage := "await_clarify"
    parsed := fallbackEntry ""
    image_b64 := Option.none
    user_text := "chips"
    issues := ["price"]
    substage := Option.none
    choice := Option.none }


/-- A JSON loader that parses nothing (concrete test data for C7). -/
def jNone : String → Option PyVal := fun _ => Option.none

/-- An oracle answering "N" on the first attempt and "Y" on the forced one. -/
def rTwo : String → Option String → Bool → String := fun _ _ b => if b then "Y" else "N"

/-- The normalized entry the concrete oracle `jsonOK` / `respondOK`
produces (test data). -/
def entryLunch : Entry :=
  { Name := PyVal.str "Lunch", name_confidence := mkRat 9 10,
    category := PyVal.str "Food", category_confidence := mkRat 9 10,
    price := PyVal.num 120, price_confidence := mkRat 9 10,
    raw_model := PyVal.str "OK" }

/-- C1: for every normalized entry and every threshold, a price confidence
at or above the threshold makes `needs_clarification` return `ask = False`
with an empty issues list, whatever the name and category confidences are. -/
theorem C1_price_confident_accepts (e : Entry) (t : ℚ) (h : e.price_confidence ≥ t) :
    needs_clarification e t = (false, []) := by
  simp [needs_clarification, h]

/-- C1 witness: a concrete entry whose price confidence meets the threshold. -/
theorem C1_price_confident_accepts_witness :
    (fallbackEntry "x").price_confidence ≥ 0 ∧
      needs_clarification (fallbackEntry "x") 0 = (false, []) :=
  ⟨by decide, C1_price_confident_accepts (fallbackEntry "x") 0 (by decide)⟩

/-- C3: whenever the price confidence is below the threshold, the issues
list contains "price"; a field appears in the list exactly when its
confidence is below the threshold; the list is a sublist of the fixed
order name, category, price; and `ask` is true exactly when the list is
non-empty. -/
theorem C3_low_price_collects_issues (e : Entry) (t : ℚ) (h : e.price_confidence < t) :
    "price" ∈ (needs_clarification e t).2 ∧
    ("name" ∈ (needs_clarification e t).2 ↔ e.name_confidence < t) ∧
    ("category" ∈ (needs_clarification e t).2 ↔ e.category_confidence < t) ∧
    List.Sublist (needs_clarification e t).2 ["name", "category", "price"] ∧
    ((needs_clarification e t).1 = true ↔ (needs_clarification e t).2 ≠ []) := by
  by_cases h1 : e.name_confidence < t <;> by_cases h2 : e.category_confidence < t <;>
    simp [needs_clarification, h, h.not_le, h1, h2]

/-- C3 witness: a concrete entry below the threshold on every field. -/
theorem C3_low_price_collects_issues_witness :
    "price" ∈ (needs_clarification (fallbackEntry "w") 1).2 :=
  (C3_low_price_collects_issues (fallbackEntry "w") 1 (by decide)).1

/-- C4 counterexample: on a raw map with no category at all the normalizer
succeeds and leaves the category `None` — not `"Others"` — refuting the
claim that a null or missing category becomes `"Others"` and that the
category is never left null after normalization. -/
theorem C4_counterexample_null_category :
    (_normalize_confidence_parsed []).map Entry.category = Except.ok PyVal.none ∧
      ∀ c ∈ ALLOWED_CATEGORIES, PyVal.none ≠ PyVal.str c :=
  ⟨by rfl, by intro c _ heq; cases heq⟩

/-- C4 amended: after the Field Normalizer runs, a non-null raw category is
always coerced to one of the four enum values (unmapped text such as
"snacks" falls back to "Others"), while a null or missing category is left
null by the normalizer (the storage layer, not the normalizer, later
defaults it). -/
theorem C4_category_enum_or_null (parsed : List (String × PyVal)) (e : Entry)
    (h : _normalize_confidence_parsed parsed = .ok e) :
    (pyGet parsed "category" ≠ PyVal.none → e.category ∈ ALLOWED_CATEGORIES.map PyVal.str) ∧
    (pyGet parsed "category" = PyVal.none → e.category = PyVal.none) := by
  unfold _normalize_confidence_parsed at h
  split at h
  · exact absurd h (by simp)
  · exact absurd h (by simp)
  · exact absurd h (by simp)
  · injection h with h
    subst h
    constructor
    · intro hne
      cases hc : pyGet parsed "category" <;> simp_all <;>
        · split
          · next hm => exact ⟨_, hm, rfl⟩
          · simp [ALLOWED_CATEGORIES]
    · intro he
      simp [he]

/-- C4 witness: the "snacks" scenario, where the raw category is non-null
and the normalized category lands in the enum. -/
theorem C4_category_enum_or_null_witness :
    PyVal.str "Others" ∈ ALLOWED_CATEGORIES.map PyVal.str :=
  (C4_category_enum_or_null [("category", PyVal.str "snacks")]
      { Name := PyVal.none, name_confidence := 0, category := PyVal.str "Others",
        category_confidence := 0, price := PyVal.none, price_confidence := 0,
        raw_model := PyVal.dict [("category", PyVal.str "snacks")] }
      (by rfl)).1 (by simp [pyGet])

/-- C5: the Field Normalizer does throw on some key-value maps — on a dict
whose name confidence is the truthy non-numeric string "high", Python
`float("high")` raises `ValueError` and the exception propagates, so
malformed confidence values do not degrade to defaults. -/
theorem C5_normalizer_throws_on_nonnumeric :
    (_normalize_confidence_parsed [("name_confidence", PyVal.str "high")]).toOption
      = Option.none := by rfl

/-- C9: question synthesis is total on the subsets of the three fields: the
empty set yields the yes/no confirmation prompt (mentioning both answers),
each singleton a tailored question mentioning its field, and every
multi-issue set one combined prompt listing every outstanding field. -/
theorem C9_question_synthesis_total :
    ∀ issues ∈ (["name", "category", "price"] : List String).sublists,
      (issues = [] →
        List.IsInfix "yes".data (_start_verif_question_issues issues).data ∧
        List.IsInfix "no".data (_start_verif_question_issues issues).data) ∧
      (issues.length = 1 →
        ∀ f ∈ issues, List.IsInfix f.data (_start_verif_question_issues issues).data) ∧
      (2 ≤ issues.length →
        ∀ f ∈ issues, List.IsInfix f.data (_start_verif_question_issues issues).data) := by
  decide

/-- C9 witness: the two-issue set category, price, whose combined prompt
lists the field "price". -/
theorem C9_question_synthesis_total_witness :
    List.IsInfix "price".data (_start_verif_question_issues ["category", "price"]).data :=
  (C9_question_synthesis_total ["category", "price"] (by decide)).2.2 (by decide) "price" (by decide)

/-- C10: every document the persistence helper hands to the Entry Store is
`buildDoc` of the candidate; its price is always a number — a null price,
or a string price that fails numeric parsing after the markers ₹, rs, $
and the comma separators are stripped, is stored as 0, and a parseable
string as its numeric value — the name defaults to "" when null, and the
category defaults to "uncategorized", a value outside the four-category
enum, when null. -/
theorem C10_stored_document_shape :
    (∀ env tid parsed sp d, d ∈ (_store_query_for_user env tid parsed sp).2 →
        ∃ phone, d = buildDoc phone tid parsed) ∧
    (∀ phone tid parsed,
      (∃ q : ℚ, (buildDoc phone tid parsed).price = PyVal.num q) ∧
      (parsed.price = PyVal.none → (buildDoc phone tid parsed).price = PyVal.num 0) ∧
      (∀ s, parsed.price = PyVal.str s → storePriceNorm (PyVal.str s) = Option.none →
          (buildDoc phone tid parsed).price = PyVal.num 0) ∧
      (∀ s q, parsed.price = PyVal.str s → storePriceNorm (PyVal.str s) = some (PyVal.num q) →
          (buildDoc phone tid parsed).price = PyVal.num q) ∧
      (parsed.Name = PyVal.none → (buildDoc phone tid parsed).name = PyVal.str "") ∧
      (parsed.category = PyVal.none → (buildDoc phone tid parsed).category = PyVal.str "uncategorized") ∧
      PyVal.str "uncategorized" ∉ ALLOWED_CATEGORIES.map PyVal.str) := by
  constructor
  · intro env tid parsed sp d hd
    cases hph : (if sp.truthy then some sp else resolvePhone env) with
    | none => simp [_store_query_for_user, hph] at hd
    | some phone =>
      cases hdb : env.dbPresent with
      | false => simp [_store_query_for_user, hph, hdb] at hd
      | true =>
        cases hins : env.insertOne (buildDoc phone tid parsed) with
        | error e => simp [_store_query_for_user, hph, hdb, hins] at hd
        | ok oid =>
          simp [_store_query_for_user, hph, hdb, hins] at hd
          exact ⟨phone, hd⟩
  · intro phone tid parsed
    refine ⟨?_, ?_, ?_, ?_, ?_, ?_, ?_⟩
    · cases hp : parsed.price with
      | none => exact ⟨0, by simp [buildDoc, storePriceNorm, hp]⟩
      | bool b => exact ⟨if b then 1 else 0, by cases b <;> simp [buildDoc, storePriceNorm, hp]⟩
      | num q => exact ⟨q, by simp [buildDoc, storePriceNorm, hp]⟩
      | str s =>
        simp only [buildDoc, storePriceNorm, hp]
        split
        · cases hf : pyFloatParse (pyReplace (pyReplace (pyReplace (pyReplace (pyLower (pyStrip s)) "₹" "") "rs" "") "," "") "$" "") with
          | none => exact ⟨0, by simp [hf]⟩
          | some q => exact ⟨q, by simp [hf]⟩
        · cases hi : pyIntParse (pyReplace (pyReplace (pyReplace (pyReplace (pyLower (pyStrip s)) "₹" "") "rs" "") "," "") "$" "") with
          | none => exact ⟨0, by simp [hi]⟩
          | some i => exact ⟨mkRat i 1, by simp [hi]⟩
      | list xs => exact ⟨0, by simp [buildDoc, storePriceNorm, hp]⟩
      | dict kvs => exact ⟨0, by simp [buildDoc, storePriceNorm, hp]⟩
    · intro hp; simp [buildDoc, storePriceNorm, hp]
    · intro s hp hnone; simp [buildDoc, hp, hnone]
    · intro s q hp hsome; simp [buildDoc, hp, hsome]
    · intro hn; simp [buildDoc, hn, pyOr, PyVal.truthy]
    · intro hc; simp [buildDoc, hc, pyOr, PyVal.truthy]
    · simp [ALLOWED_CATEGORIES]

/-- C7: the extraction adapter makes at most two oracle calls; when the
first attempt does not parse (or parses to a falsy object) and the second
parses to a truthy dict that normalizes, the second (force-guess)
normalized result is returned regardless of its confidence values; when
both attempts fail to parse, the all-null fallback with every confidence
0.0 is returned; a first attempt that parses and normalizes with all
confidences below the threshold likewise makes exactly the one second
attempt and returns that attempt's normalized result regardless of its
confidence values (or the all-null fallback when the second does not
parse); and one above-threshold confidence returns after one attempt. -/
theorem C7_two_attempt_escalation (j : String → Option PyVal)
    (r : String → Option String → Bool → String) (u : String) (i : Option String) :
    (categorization_with_confidence j r u i).2 ≤ 2 ∧
    (truthyOpt (_try_fix_and_load_json j (r u i false)) = false →
      (∀ v2 n2, _try_fix_and_load_json j (r u i true) = some v2 → v2.truthy = true →
        normalizeVal v2 = .ok n2 →
        categorization_with_confidence j r u i =
          (.ok { n2 with raw_model := PyVal.str (r u i true) }, 2)) ∧
      (truthyOpt (_try_fix_and_load_json j (r u i true)) = false →
        categorization_with_confidence j r u i =
          (.ok (fallbackEntry (if (_try_fix_and_load_json j (r u i false)).isNone
              then r u i false else r u i true)), 2))) ∧
    (∀ v1 n1, _try_fix_and_load_json j (r u i false) = some v1 → v1.truthy = true →
      normalizeVal v1 = .ok n1 →
      ((n1.name_confidence < CONF_THRESH ∧ n1.category_confidence < CONF_THRESH ∧
          n1.price_confidence < CONF_THRESH) →
        (categorization_with_confidence j r u i).2 = 2 ∧
        (∀ v2 n2, _try_fix_and_load_json j (r u i true) = some v2 → v2.truthy = true →
          normalizeVal v2 = .ok n2 →
          categorization_with_confidence j r u i =
            (.ok { n2 with raw_model := PyVal.str (r u i true) }, 2)) ∧
        (truthyOpt (_try_fix_and_load_json j (r u i true)) = false →
          categorization_with_confidence j r u i =
            (.ok (fallbackEntry (r u i true)), 2))) ∧
      ((CONF_THRESH ≤ n1.name_confidence ∨ CONF_THRESH ≤ n1.category_confidence ∨
          CONF_THRESH ≤ n1.price_confidence) →
        categorization_with_confidence j r u i =
          (.ok { n1 with raw_model := PyVal.str (r u i false) }, 1))) := by
  have hsec2 : ∀ text fw, (categorization_second j r u i text fw).2 = 2 := by
    intro text fw
    cases h2 : _try_fix_and_load_json j (r u i true) with
    | none => simp [categorization_second, h2]
    | some v2 =>
      cases ht : v2.truthy with
      | false => simp [categorization_second, h2, ht]
      | true =>
        cases hn : normalizeVal v2 with
        | error e => simp [categorization_second, h2, ht, hn]
        | ok n2 => simp [categorization_second, h2, ht, hn]
  refine ⟨?_, ?_, ?_⟩
  · cases h0 : _try_fix_and_load_json j (r u i false) with
    | none =>
      simp only [categorization_with_confidence, h0]
      exact (hsec2 _ _).le
    | some v1 =>
      cases ht : v1.truthy with
      | false =>
        simp only [categorization_with_confidence, h0, ht, Bool.false_eq_true, if_false]
        exact (hsec2 _ _).le
      | true =>
        cases hn : normalizeVal v1 with
        | error e => simp [categorization_with_confidence, h0, ht, hn]
        | ok n1 =>
          by_cases hc : CONF_THRESH ≤ n1.name_confidence ∨
              CONF_THRESH ≤ n1.category_confidence ∨ CONF_THRESH ≤ n1.price_confidence
          · simp [categorization_with_confidence, h0, ht, hn, hc]
          · simp only [categorization_with_confidence, h0, ht, hn, hc, if_false]
            exact (hsec2 _ _).le
  · intro h0t
    constructor
    · intro v2 n2 h2 ht2 hn2
      cases h0 : _try_fix_and_load_json j (r u i false) with
      | none =>
        simp [categorization_with_confidence, h0, categorization_second, h2, ht2, hn2]
      | some v1 =>
        have ht1 : v1.truthy = false := by rw [h0] at h0t; simpa [truthyOpt] using h0t
        simp [categorization_with_confidence, h0, ht1, categorization_second, h2, ht2, hn2]
    · intro h2t
      cases h0 : _try_fix_and_load_json j (r u i false) with
      | none =>
        cases h2 : _try_fix_and_load_json j (r u i true) with
        | none => simp [categorization_with_confidence, h0, categorization_second, h2]
        | some v2 =>
          have ht2 : v2.truthy = false := by rw [h2] at h2t; simpa [truthyOpt] using h2t
          simp [categorization_with_confidence, h0, categorization_second, h2, ht2]
      | some v1 =>
        have ht1 : v1.truthy = false := by rw [h0] at h0t; simpa [truthyOpt] using h0t
        cases h2 : _try_fix_and_load_json j (r u i true) with
        | none => simp [categorization_with_confidence, h0, ht1, categorization_second, h2]
        | some v2 =>
          have ht2 : v2.truthy = false := by rw [h2] at h2t; simpa [truthyOpt] using h2t
          simp [categorization_with_confidence, h0, ht1, categorization_second, h2, ht2]
  · intro v1 n1 h0 ht1 hn1
    constructor
    · rintro ⟨hlt1, hlt2, hlt3⟩
      have hc : ¬ (CONF_THRESH ≤ n1.name_confidence ∨
          CONF_THRESH ≤ n1.category_confidence ∨ CONF_THRESH ≤ n1.price_confidence) := by
        simp only [not_or, not_le]
        exact ⟨hlt1, hlt2, hlt3⟩
      refine ⟨?_, ?_, ?_⟩
      · simp only [categorization_with_confidence, h0, ht1, hn1, hc, if_false]
        exact hsec2 _ _
      · intro v2 n2 h2 ht2 hn2
        simp [categorization_with_confidence, h0, ht1, hn1, hc,
          categorization_second, h2, ht2, hn2]
      · intro h2t
        cases h2 : _try_fix_and_load_json j (r u i true) with
        | none =>
          simp [categorization_with_confidence, h0, ht1, hn1, hc,
            categorization_second, h2]
        | some v2 =>
          have ht2 : v2.truthy = false := by rw [h2] at h2t; simpa [truthyOpt] using h2t
          simp [categorization_with_confidence, h0, ht1, hn1, hc,
            categorization_second, h2, ht2]
    · intro hc
      simp [categorization_with_confidence, h0, ht1, hn1, hc]

/-- C7 witness: with an oracle whose replies never parse, the adapter
returns the all-null fallback carrying the first reply text, after exactly
two attempts. -/
theorem C7_two_attempt_escalation_witness :
    categorization_with_confidence jNone rTwo "m" Option.none =
      (.ok (fallbackEntry "N"), 2) :=
  ((C7_two_attempt_escalation jNone rTwo "m" Option.none).2.1 (by rfl)).2 (by rfl)

/-- C2 (the spec's own §4.3 note flags this source behavior as the bug to
fix): when a reply in `await_clarify` resolves the entry but the Entry
Store insert fails, `handle_text` still clears the pending state — nothing
was persisted and the candidate is not preserved for a retry. -/
theorem C2_pending_cleared_on_failed_insert :
    (handle_text envFail (some pendClarify) "650" "42").map
        (fun r => (r.pending, r.inserts)) = .ok (Option.none, []) := by rfl

/-- C6: a reply in `await_clarify` re-runs extraction over the space-joined
accumulated text together with the original image carried unchanged inside
the pending record; a resolved result is persisted (here: the store
accepts the built document) and the pending state cleared; an unresolved
one keeps stage `await_clarify` with the updated candidate, issues and
combined text, and the synthesized question is the reply. -/
theorem C6_await_clarify_transition (env : HEnv) (p : Pending) (msg tid : String)
    (hstage : p.stage = "await_clarify")
    (hmsg : (pyStrip msg).data.isEmpty = false)
    (parsed : Entry)
    (hcat : (categorization_with_confidence env.jsonLoads env.respond
        (p.user_text ++ " " ++ pyStrip msg) p.image_b64).1 = .ok parsed) :
    (needs_clarification parsed CONF_THRESH = (false, []) →
      ∀ phone oid, env.store.dbPresent = true →
        resolvePhone env.store = some phone →
        env.store.insertOne (buildDoc phone tid parsed) = .ok oid →
        handle_text env (some p) msg tid =
          .ok ⟨Option.none, ["✅ *Saved successfully!*\n\n" ++ format_pretty_json parsed],
            [buildDoc phone tid parsed]⟩) ∧
    (∀ issues, needs_clarification parsed CONF_THRESH = (true, issues) →
      handle_text env (some p) msg tid =
        .ok ⟨some { p with
              stage := "await_clarify"
              parsed := parsed
              issues := issues
              user_text := p.user_text ++ " " ++ pyStrip msg },
          [_start_verif_question_issues issues], []⟩) := by
  constructor
  · intro hneeds phone oid hdb hph hins
    simp [handle_text, hmsg, hstage, hcat, hneeds, hdb, hph, hins,
      _store_query_for_user, PyVal.truthy]
  · intro issues hneeds
    simp [handle_text, hmsg, hstage, hcat, hneeds]

/-- C6 witness: a concrete clarify reply that resolves and persists. -/
theorem C6_await_clarify_transition_witness :
    handle_text envGood (some pendClarify) "650" "42" =
      .ok ⟨Option.none, ["✅ *Saved successfully!*\n\n" ++ format_pretty_json entryLunch],
        [buildDoc (PyVal.str "91") "42" entryLunch]⟩ :=
  (C6_await_clarify_transition envGood pendClarify "650" "42" rfl (by rfl) entryLunch
      (by rfl)).1 (by decide) (PyVal.str "91") "oid1" rfl (by rfl) (by rfl)

/-- C8: the verify sub-protocol. In `await_verify_response` a yes-class
reply persists the candidate (here: the store accepts it) and clears the
pending state, any other reply moves to `choose_field`; in `choose_field`
a reply outside name / category / price / all re-prompts without changing
the state, a valid one records the choice and moves to `await_correction`;
in `await_correction` the reply is applied to the chosen field (a category
coerced into the enum with fallback "Others"), while for "all" the whole
reply is parsed and replaces the candidate wholesale, re-prompting in the
same substage on parse failure; every applied correction returns to
`await_verify_response`. -/
theorem C8_verify_subprotocol (env : HEnv) (p : Pending) (msg tid : String)
    (hstage : p.stage = "verify_flow")
    (hmsg : (pyStrip msg).data.isEmpty = false) :
    (p.substage.getD "await_verify_response" = "await_verify_response" →
      (pyLower (pyStrip msg) ∈ ["yes", "y", "yeah", "correct"] →
        ∀ phone oid, env.store.dbPresent = true →
          resolvePhone env.store = some phone →
          env.store.insertOne (buildDoc phone tid p.parsed) = .ok oid →
          handle_text env (some p) msg tid =
            .ok ⟨Option.none,
              ["✅ *Saved successfully!*\n\n" ++ format_pretty_json p.parsed],
              [buildDoc phone tid p.parsed]⟩) ∧
      (pyLower (pyStrip msg) ∉ ["yes", "y", "yeah", "correct"] →
        handle_text env (some p) msg tid =
          .ok ⟨some { p with substage := some "choose_field" },
            ["📝 *Which field would you like to correct?*\n\nReply with: `name` / `category` / `price` / `all`"],
            []⟩)) ∧
    (p.substage.getD "await_verify_response" = "choose_field" →
      (pyLower (pyStrip (pyStrip msg)) ∉ ["name", "category", "price", "all"] →
        handle_text env (some p) msg tid =
          .ok ⟨some p, ["🤔 Please reply with one of: `name` / `category` / `price` / `all`"], []⟩) ∧
      (pyLower (pyStrip (pyStrip msg)) ∈ ["name", "category", "price", "all"] →
        handle_text env (some p) msg tid =
          .ok ⟨some { p with
                substage := some "await_correction"
                choice := some (pyLower (pyStrip (pyStrip msg))) },
            ["✏️ Please send the corrected value for *" ++ pyLower (pyStrip (pyStrip msg)) ++ "*."],
            []⟩)) ∧
    (p.substage.getD "await_verify_response" = "await_correction" →
      (p.choice = some "name" →
        handle_text env (some p) msg tid =
          .ok ⟨some { p with
                parsed := { p.parsed with Name := PyVal.str (pyStrip (pyStrip msg)) }
                substage := some "await_verify_response" },
            [confirmPrompt { p.parsed with Name := PyVal.str (pyStrip (pyStrip msg)) }], []⟩) ∧
      (p.choice = some "category" →
        handle_text env (some p) msg tid =
          .ok ⟨some { p with
                parsed := { p.parsed with category := PyVal.str (coerceCategory (pyStrip msg)) }
                substage := some "await_verify_response" },
            [confirmPrompt { p.parsed with category := PyVal.str (coerceCategory (pyStrip msg)) }], []⟩) ∧
      (p.choice = some "price" →
        handle_text env (some p) msg tid =
          .ok ⟨some { p with
                parsed := { p.parsed with price := PyVal.str (pyStrip (pyStrip msg)) }
                substage := some "await_verify_response" },
            [confirmPrompt { p.parsed with price := PyVal.str (pyStrip (pyStrip msg)) }], []⟩) ∧
      (p.choice = some "all" →
        (∀ v n, _try_fix_and_load_json env.jsonLoads (pyStrip msg) = some v →
          v.truthy = true → normalizeVal v = .ok n →
          handle_text env (some p) msg tid =
            .ok ⟨some { p with parsed := n, substage := some "await_verify_response" },
              [confirmPrompt n], []⟩) ∧
        (truthyOpt (_try_fix_and_load_json env.jsonLoads (pyStrip msg)) = false →
          handle_text env (some p) msg tid =
            .ok ⟨some p,
              ["🤔 *Couldn't understand that format.*\n\nPlease send the corrected values as JSON or correct fields one by one."],
              []⟩))) := by
  refine ⟨?_, ?_, ?_⟩
  · intro hsub
    constructor
    · intro hyes phone oid hdb hph hins
      simp [handle_text, hmsg, hstage, hsub, hyes, hdb, hph, hins,
        _store_query_for_user, PyVal.truthy]
    · intro hno
      simp [handle_text, hmsg, hstage, hsub, hno]
  · intro hsub
    constructor
    · intro hno
      simp [handle_text, hmsg, hstage, hsub, hno]
    · intro hyes
      simp [handle_text, hmsg, hstage, hsub, hyes]
  · intro hsub
    refine ⟨?_, ?_, ?_, ?_⟩
    · intro hch
      simp [handle_text, hmsg, hstage, hsub, hch]
    · intro hch
      simp [handle_text, hmsg, hstage, hsub, hch]
    · intro hch
      simp [handle_text, hmsg, hstage, hsub, hch]
    · intro hch
      constructor
      · intro v n hv ht hn
        simp [handle_text, hmsg, hstage, hsub, hch, hv, ht, hn, Except.map]
      · intro hft
        cases hv : _try_fix_and_load_json env.jsonLoads (pyStrip msg) with
        | none => simp [handle_text, hmsg, hstage, hsub, hch, hv]
        | some v =>
          have ht : v.truthy = false := by rw [hv] at hft; simpa [truthyOpt] using hft
          simp [handle_text, hmsg, hstage, hsub, hch, hv, ht]

/-- C8 witness: a concrete category correction coerced into the enum. -/
theorem C8_verify_subprotocol_witness :
    handle_text envGood
        (some { pendClarify with
                stage := "verify_flow"
                substage := some "await_correction"
                choice := some "category" })
        "snacks" "42" =
      .ok ⟨some { pendClarify with
            stage := "verify_flow"
            parsed := { pendClarify.parsed with category := PyVal.str "Others" }
            substage := some "await_verify_response"
            choice := some "category" },
        [confirmPrompt { pendClarify.parsed with category := PyVal.str "Others" }], []⟩ :=
  ((C8_verify_subprotocol envGood
      { pendClarify with
        stage := "verify_flow"
        substage := some "await_correction"
        choice := some "category" }
      "snacks" "42" rfl (by rfl)).2.2 rfl).2.1 rfl

/-- C10 witness: a string price "₹1,500" is stripped and stored as the
number 1500. -/
theorem C10_stored_document_shape_witness :
    (buildDoc (PyVal.str "91") "42"
        { Name := PyVal.none, name_confidence := 0, category := PyVal.none,
          category_confidence := 0, price := PyVal.str "₹1,500",
          price_confidence := 0, raw_model := PyVal.none }).price = PyVal.num 1500 :=
  (C10_stored_document_shape.2 (PyVal.str "91") "42" _).2.2.2.1 "₹1,500" 1500 rfl (by rfl)

end Finman
